import Mathlib

/-!
Shallow embedding of the connector sink subsystem of tremor-runtime
(src/src/connectors/sink.rs), together with theorems checking the
natural-language specification against it.

The embedding models the release-build semantics of the Rust source:
`debug_assert!` is a no-op, machine integers are `Nat` (no overflow is
relevant to the modelled paths), channels are value lists, and external
collaborators (codecs, postprocessors, the metrics reporter, pipeline
addresses) are abstracted exactly where the source treats them as opaque.
-/

/-- Modelled from the spec: circuit-breaker actions carried by contraflow
events (`tremor_pipeline::CbAction`, not among the provided sources).
Spec glossary: actions include Open (resume), Close (halt), Ack, Fail,
Drained. -/
inductive CbAction where
  | ack
  | fail
  | cbOpen
  | cbClose
  | drained (uid : Nat)
  deriving DecidableEq, Repr

/-- Operator trail of an event (`tremor_pipeline::OpMeta`, external); the
claims never inspect its contents, only where it is taken from. -/
abbrev OpMeta := List Nat

/-- Modelled from the spec: merging an event's op_meta into the sink's
accumulated `merged_operator_meta` (spec §4.1 event path step 3; the merge
itself lives in `tremor_pipeline`, not among the provided sources). -/
def OpMeta.merge (a b : OpMeta) : OpMeta := a ++ b

/-- Modelled from the spec: signal discriminator attached to signal events
(`tremor_pipeline::SignalKind`, external): `Start(source_uid)`,
`Drain(source_uid)`, tick and others ignored by the sink. -/
inductive SignalKind where
  | startSignal (uid : Nat)
  | drainSignal (uid : Nat)
  | tick
  deriving DecidableEq, Repr

/-- An inbound event as the sink manager consumes it: id, ingest
timestamp, operator trail, transactional flag and an optional signal kind
(`tremor_pipeline::Event`, external; fields per spec §3). The payload is
irrelevant to every modelled path and omitted. -/
structure Event where
  id : Nat
  ingestNs : Nat
  opMeta : OpMeta
  transactional : Bool
  kind : Option SignalKind
  deriving DecidableEq, Repr

/-- Modelled from the spec: a contraflow event as produced by the
`Event::cb_*`/`Event::insight` constructors (external): the retained
metadata plus the CB action and, for timed acks, the duration. -/
structure CfEvent where
  eventId : Nat
  ingestNs : Nat
  opMeta : OpMeta
  cb : CbAction
  duration : Option Nat
  deriving DecidableEq, Repr

/-- Modelled from the spec: `Event::cb_ack_with_timing(ingest_ns, id, op_meta, duration)`. -/
def CfEvent.cbAckWithTiming (ingestNs : Nat) (id : Nat) (opMeta : OpMeta) (duration : Nat) : CfEvent :=
  { eventId := id, ingestNs := ingestNs, opMeta := opMeta, cb := CbAction.ack, duration := some duration }

/-- Modelled from the spec: `Event::cb_fail(ingest_ns, id, op_meta)`. -/
def CfEvent.cbFail (ingestNs : Nat) (id : Nat) (opMeta : OpMeta) : CfEvent :=
  { eventId := id, ingestNs := ingestNs, opMeta := opMeta, cb := CbAction.fail, duration := none }

/-- Modelled from the spec: `Event::insight(cb, id, ingest_ns, op_meta)`. -/
def CfEvent.insight (cb : CbAction) (id : Nat) (ingestNs : Nat) (opMeta : OpMeta) : CfEvent :=
  { eventId := id, ingestNs := ingestNs, opMeta := opMeta, cb := cb, duration := none }

/-- Modelled from the spec: `Event::cb_open(nanotime, op_meta)` - the
connector-wide CB restore event (no originating event id). -/
def CfEvent.mkCbOpen (now : Nat) (opMeta : OpMeta) : CfEvent :=
  { eventId := 0, ingestNs := now, opMeta := opMeta, cb := CbAction.cbOpen, duration := none }

/-- Modelled from the spec: `Event::cb_close(nanotime, op_meta)` - the
connector-wide CB trigger event. -/
def CfEvent.mkCbClose (now : Nat) (opMeta : OpMeta) : CfEvent :=
  { eventId := 0, ingestNs := now, opMeta := opMeta, cb := CbAction.cbClose, duration := none }

/-- `SinkReply` (sink.rs lines 52-62): what a sink replies upon an event or
signal. -/
inductive SinkReply where
  | none
  | ack
  | fail
  | cb (action : CbAction)
  deriving DecidableEq, Repr

/-- Whether a reply is the explicit `SinkReply::CB` case. -/
def SinkReply.isCB : SinkReply → Bool
  | SinkReply.cb _ => true
  | _ => false

/-- `EventCfData` (sink.rs lines 74-90): basic event data retained for
generating contraflow from asynchronous replies. -/
structure EventCfData where
  eventId : Nat
  ingestNs : Nat
  opMeta : OpMeta
  deriving DecidableEq, Repr

/-- `AsyncSinkReply` (sink.rs lines 92-97). -/
inductive AsyncSinkReply where
  | ack (data : EventCfData) (duration : Nat)
  | fail (data : EventCfData)
  | cb (data : EventCfData) (action : CbAction)
  deriving DecidableEq, Repr

/-- The contraflow event the manager builds from an asynchronous reply
(sink.rs lines 666-681). -/
def asyncReplyToCf : AsyncSinkReply → CfEvent
  | AsyncSinkReply.ack d duration => CfEvent.cbAckWithTiming d.ingestNs d.eventId d.opMeta duration
  | AsyncSinkReply.fail d => CfEvent.cbFail d.ingestNs d.eventId d.opMeta
  | AsyncSinkReply.cb d action => CfEvent.insight action d.eventId d.ingestNs d.opMeta

/-- `ContraflowBuilder` (sink.rs lines 691-695): metadata retained from an
inbound event before it is handed to the user sink. -/
structure ContraflowBuilder where
  eventId : Nat
  ingestNs : Nat
  opMeta : OpMeta
  deriving DecidableEq, Repr

/-- `ContraflowBuilder::ack` (sink.rs lines 698-705). -/
def ContraflowBuilder.ack (cfb : ContraflowBuilder) (duration : Nat) : CfEvent :=
  CfEvent.cbAckWithTiming cfb.ingestNs cfb.eventId cfb.opMeta duration

/-- `ContraflowBuilder::into_ack` (sink.rs lines 706-708): same event as
`ack`; the by-move variant only saves a clone. -/
def ContraflowBuilder.intoAck (cfb : ContraflowBuilder) (duration : Nat) : CfEvent :=
  CfEvent.cbAckWithTiming cfb.ingestNs cfb.eventId cfb.opMeta duration

/-- `ContraflowBuilder::fail` (sink.rs lines 709-711). -/
def ContraflowBuilder.fail (cfb : ContraflowBuilder) : CfEvent :=
  CfEvent.cbFail cfb.ingestNs cfb.eventId cfb.opMeta

/-- `ContraflowBuilder::into_fail` (sink.rs lines 712-714). -/
def ContraflowBuilder.intoFail (cfb : ContraflowBuilder) : CfEvent :=
  CfEvent.cbFail cfb.ingestNs cfb.eventId cfb.opMeta

/-- `ContraflowBuilder::cb` (sink.rs lines 715-722). -/
def ContraflowBuilder.cb (cfb : ContraflowBuilder) (action : CbAction) : CfEvent :=
  CfEvent.insight action cfb.eventId cfb.ingestNs cfb.opMeta

/-- `ContraflowBuilder::into_cb` (sink.rs lines 723-725). -/
def ContraflowBuilder.intoCb (cfb : ContraflowBuilder) (action : CbAction) : CfEvent :=
  CfEvent.insight action cfb.eventId cfb.ingestNs cfb.opMeta

/-- `impl From<&Event> for ContraflowBuilder` (sink.rs lines 728-736). -/
def ContraflowBuilder.ofEvent (ev : Event) : ContraflowBuilder :=
  { eventId := ev.id, ingestNs := ev.ingestNs, opMeta := ev.opMeta }

/-- A pipeline binding `(TremorUrl, pipeline::Addr)`; urls and addresses
are opaque handles, modelled as numbers. -/
structure Binding where
  url : Nat
  addr : Nat
  deriving DecidableEq, Repr

/-- One `send_insight` performed by `send_contraflow` (sink.rs lines
739-761): the target binding, the event sent, whether it was the cloned
copy (every binding except the first) or the moved original (the first
binding), and whether the send succeeded. The result is only logged by the
source, never branched on. -/
structure SendRec where
  target : Binding
  event : CfEvent
  cloned : Bool
  ok : Bool
  deriving DecidableEq, Repr

/-- `send_contraflow` (sink.rs lines 739-761): iterate the bindings from
the second onward sending a clone to each, then send the original to the
first binding; a send failure is logged and does not stop the loop,
modelled by the `sendOk` oracle being recorded but never consulted. -/
def sendContraflow (sendOk : Binding → Bool) (pipelines : List Binding) (cf : CfEvent) : List SendRec :=
  match pipelines with
  | [] => []
  | first :: rest =>
      rest.map (fun b => { target := b, event := cf, cloned := true, ok := sendOk b }) ++
        [{ target := first, event := cf, cloned := false, ok := sendOk first }]

/-- The contraflow event the loop body of `handle_replies` (sink.rs lines
773-788) produces for one of the replies after the first; `SinkReply::None`
produces nothing. -/
def replyCf (duration : Nat) (cfb : ContraflowBuilder) : SinkReply → Option CfEvent
  | SinkReply.ack => some (cfb.ack duration)
  | SinkReply.fail => some cfb.fail
  | SinkReply.cb action => some (cfb.cb action)
  | SinkReply.none => Option.none

/-- The contraflow events the final `match first` of `handle_replies`
(sink.rs lines 789-808) produces for the first reply: `None` emits the
auto-ack exactly when `send_auto_ack` is true. -/
def firstCf (duration : Nat) (cfb : ContraflowBuilder) (sendAutoAck : Bool) : SinkReply → List CfEvent
  | SinkReply.ack => [cfb.intoAck duration]
  | SinkReply.fail => [cfb.intoFail]
  | SinkReply.cb action => [cfb.intoCb action]
  | SinkReply.none => if sendAutoAck then [cfb.intoAck duration] else []

/-- `handle_replies` (sink.rs lines 763-810), as the ordered list of
contraflow events it fans out: nothing for an empty vector; otherwise the
events for the replies after the first (in order), then the event(s) for
the first reply. -/
def handleReplies (replies : List SinkReply) (duration : Nat) (cfb : ContraflowBuilder)
    (sendAutoAck : Bool) : List CfEvent :=
  match replies with
  | [] => []
  | first :: rest => rest.filterMap (replyCf duration cfb) ++ firstCf duration cfb sendAutoAck first

/-- `DEFAULT_STREAM_ID` (`tremor_pipeline`, external): stream id `0` is the
default stream (spec §3). -/
def DEFAULT_STREAM_ID : Nat := 0

/-- Which codec/postprocessor pair `serialize_for_stream` used: the
primary pair, an existing per-stream entry, or a freshly constructed one. -/
inductive SerializeChoice where
  | primary
  | existingStream (id : Nat)
  | newStream (id : Nat)
  deriving DecidableEq, Repr

/-- `EventSerializer` (sink.rs lines 309-319), reduced to the observable
state the claims speak about: the set of stream ids holding a per-stream
codec/postprocessor pair. The codec and postprocessor values themselves
are external collaborators (spec §1). -/
structure EventSerializer where
  streams : Finset Nat
  deriving DecidableEq

/-- `EventSerializer::drop_stream` (sink.rs lines 339-341). -/
def EventSerializer.dropStream (ser : EventSerializer) (streamId : Nat) : EventSerializer :=
  { streams := ser.streams.erase streamId }

/-- `EventSerializer::clear` (sink.rs lines 345-347). -/
def EventSerializer.clear (_ser : EventSerializer) : EventSerializer :=
  { streams := ∅ }

/-- `EventSerializer::serialize_for_stream` (sink.rs lines 361-388): the
default stream uses the primary codec and postprocessors; any other id is
looked up in the stream map, a vacant entry getting a freshly resolved
codec and postprocessor chain inserted. Encoding itself is external; the
model returns which pair was used. -/
def EventSerializer.serializeForStream (ser : EventSerializer) (_value : Nat) (_ingestNs : Nat)
    (streamId : Nat) : EventSerializer × SerializeChoice :=
  if streamId = DEFAULT_STREAM_ID then
    (ser, SerializeChoice.primary)
  else if streamId ∈ ser.streams then
    (ser, SerializeChoice.existingStream streamId)
  else
    ({ streams := insert streamId ser.streams }, SerializeChoice.newStream streamId)

/-- `EventSerializer::serialize` (sink.rs lines 353-355). -/
def EventSerializer.serialize (ser : EventSerializer) (value : Nat) (ingestNs : Nat) :
    EventSerializer × SerializeChoice :=
  ser.serializeForStream value ingestNs DEFAULT_STREAM_ID

/-- `SinkState` (sink.rs lines 391-399). -/
inductive SinkState where
  | initialized
  | running
  | paused
  | draining
  | drained
  | stopped
  deriving DecidableEq, Repr

/-- `Msg::SinkDrained` / `Msg::SourceDrained` (connectors::Msg, external):
the two supervisor messages the sink manager sends on the drain reply
channel. -/
inductive ConnectorMsg where
  | sinkDrained
  | sourceDrained
  deriving DecidableEq, Repr

/-- The lifecycle hooks of the `Sink` trait the manager invokes. -/
inductive LifecycleHook where
  | onStart
  | onPause
  | onResume
  | onStop
  deriving DecidableEq, Repr

/-- `SinkMsg` (sink.rs lines 183-225). Ports are strings; the drain reply
channel is an opaque handle modelled as a number. -/
inductive SinkMsg where
  | event (event : Event) (port : String)
  | signal (signal : Event)
  | connect (port : String) (pipelines : List Binding)
  | disconnect (id : Nat) (port : String)
  | connectionLost
  | connectionEstablished
  | start
  | pause
  | resume
  | stop
  | drain (sender : Nat)
  deriving DecidableEq, Repr

/-- An observable action of one loop iteration of `SinkManager::run`:
fanning a contraflow event out to the connected pipelines
(`send_contraflow`), invoking a lifecycle hook, or sending a supervisor
message on a drain reply channel. -/
inductive Output where
  | contraflow (ev : CfEvent)
  | hook (h : LifecycleHook)
  | drainSend (chan : Nat) (msg : ConnectorMsg)
  deriving DecidableEq, Repr

/-- The mutable state `SinkManager` owns (sink.rs lines 401-421), apart
from the user sink and the metrics reporter, which are external. -/
structure SinkManagerState where
  pipelines : List Binding
  mergedOpMeta : OpMeta
  startsReceived : Finset Nat
  drainsReceived : Finset Nat
  drainChannel : Option Nat
  state : SinkState
  serializer : EventSerializer
  deriving DecidableEq

/-- The environment of one loop iteration: what the user sink and the
clock contribute. `onEventRes`/`onSignalRes` stand for the value returned
by `on_event`/`on_signal`, `autoAck` for `sink.auto_ack()`, the durations
for the measured `nanotime()` differences, `now` for `nanotime()` and
`serEffect` for whatever mutation the user sink performed on the borrowed
serializer during `on_event`/`on_signal`. -/
structure Env where
  autoAck : Bool
  onEventRes : Except Unit (List SinkReply)
  onSignalRes : Except Unit (List SinkReply)
  eventDuration : Nat
  signalDuration : Nat
  now : Nat
  serEffect : EventSerializer → EventSerializer

/-- One iteration of the `ToSink` arm of `SinkManager::run` (sink.rs lines
458-664), in release-build semantics (the `debug_assert!` on the
Connect/Disconnect port is a no-op): the updated manager state and the
ordered observable actions. Metrics reporting is external (spec §1) and
not an observable of the model. -/
def sinkStep (env : Env) (s : SinkManagerState) (msg : SinkMsg) : SinkManagerState × List Output :=
  match msg with
  | SinkMsg.connect _port pls =>
      ({ s with pipelines := s.pipelines ++ pls }, [])
  | SinkMsg.disconnect id _port =>
      ({ s with pipelines := s.pipelines.filter (fun b => b.url ≠ id) }, [])
  | SinkMsg.start =>
      if s.state = SinkState.initialized then
        ({ s with state := SinkState.running }, [Output.hook LifecycleHook.onStart])
      else (s, [])
  | SinkMsg.resume =>
      if s.state = SinkState.paused then
        ({ s with state := SinkState.running }, [Output.hook LifecycleHook.onResume])
      else (s, [])
  | SinkMsg.pause =>
      if s.state = SinkState.running then
        ({ s with state := SinkState.paused }, [Output.hook LifecycleHook.onPause])
      else (s, [])
  | SinkMsg.stop =>
      ({ s with state := SinkState.stopped }, [Output.hook LifecycleHook.onStop])
  | SinkMsg.drain ch =>
      if s.state = SinkState.draining then (s, [])
      else if s.state = SinkState.drained then
        (s, [Output.drainSend ch ConnectorMsg.sinkDrained])
      else
        let s1 := { s with state := SinkState.draining, drainChannel := some ch }
        if s1.startsReceived ⊆ s1.drainsReceived then
          ({ s1 with state := SinkState.drained, drainChannel := Option.none },
           [Output.drainSend ch ConnectorMsg.sourceDrained])
        else (s1, [])
  | SinkMsg.connectionEstablished =>
      (s, [Output.contraflow (CfEvent.mkCbOpen env.now s.mergedOpMeta)])
  | SinkMsg.connectionLost =>
      ({ s with serializer := s.serializer.clear },
       [Output.contraflow (CfEvent.mkCbClose env.now s.mergedOpMeta)])
  | SinkMsg.event ev _port =>
      let cfb := ContraflowBuilder.ofEvent ev
      let s1 := { s with mergedOpMeta := s.mergedOpMeta.merge ev.opMeta,
                         serializer := env.serEffect s.serializer }
      let outs :=
        match env.onEventRes with
        | Except.ok replies =>
            (handleReplies replies env.eventDuration cfb (ev.transactional && env.autoAck)).map
              Output.contraflow
        | Except.error _ =>
            if ev.transactional then [Output.contraflow cfb.intoFail] else []
      (s1, outs)
  | SinkMsg.signal sig =>
      let cfb := ContraflowBuilder.ofEvent sig
      let kindStep : SinkManagerState × List Output :=
        match sig.kind with
        | some (SignalKind.drainSignal uid) =>
            let s1 := { s with drainsReceived := insert uid s.drainsReceived }
            let afterQuorum : SinkManagerState × List Output :=
              if s1.startsReceived ⊆ s1.drainsReceived then
                match s1.drainChannel with
                | some ch =>
                    ({ s1 with state := SinkState.drained, drainChannel := Option.none },
                     [Output.drainSend ch ConnectorMsg.sinkDrained])
                | Option.none => ({ s1 with state := SinkState.drained }, [])
              else (s1, [])
            (afterQuorum.1,
             afterQuorum.2 ++ [Output.contraflow (cfb.intoCb (CbAction.drained uid))])
        | some (SignalKind.startSignal uid) =>
            ({ s with startsReceived := insert uid s.startsReceived }, [])
        | _ => (s, [])
      let s2 := { kindStep.1 with serializer := env.serEffect kindStep.1.serializer }
      let outs :=
        match env.onSignalRes with
        | Except.ok replies =>
            (handleReplies replies env.signalDuration cfb false).map Output.contraflow
        | Except.error _ => []
      (s2, kindStep.2 ++ outs)

/-- The message loop of `SinkManager::run` (sink.rs lines 456-685) over a
list of inbound `SinkMsg`, with the same environment each iteration: a
`Stop` message breaks the loop, so later messages are not processed. -/
def runSink (env : Env) (s : SinkManagerState) : List SinkMsg → SinkManagerState × List Output
  | [] => (s, [])
  | m :: ms =>
      let step := sinkStep env s m
      if step.1.state = SinkState.stopped then step
      else
        let rest := runSink env step.1 ms
        (rest.1, step.2 ++ rest.2)

/-- Modelled from the spec: `PriorityMerge` (src/permge.rs is not among the
provided sources). Spec §4.1/§9: a poll first tests the async reply
(high-priority) channel, then the control/data channel, yielding when both
are empty. -/
def priorityNext {α β : Type} (high : List α) (low : List β) :
    Option ((α ⊕ β) × List α × List β) :=
  match high with
  | a :: hs => some (Sum.inl a, hs, low)
  | [] =>
    match low with
    | b :: ls => some (Sum.inr b, [], ls)
    | [] => Option.none

/-- Modelled from the spec: repeatedly polling `PriorityMerge` over fixed
channel contents - every high-priority item is delivered (in order) before
any low-priority item. -/
def priorityDrain {α β : Type} (high : List α) (low : List β) : List (α ⊕ β) :=
  match high with
  | a :: hs => Sum.inl a :: priorityDrain hs low
  | [] => low.map Sum.inr

/-- Number of replies in a vector that are `Ack` or `Fail`. -/
def countAckFailReplies (replies : List SinkReply) : Nat :=
  replies.countP (fun r =>
    match r with
    | SinkReply.ack => true
    | SinkReply.fail => true
    | _ => false)

/-- Number of contraflow events in a list that carry the given event id
and a CB action in {Ack, Fail}. -/
def countAckFailCf (eid : Nat) (evs : List CfEvent) : Nat :=
  evs.countP (fun e => decide (e.eventId = eid ∧ (e.cb = CbAction.ack ∨ e.cb = CbAction.fail)))

/-- Number of fanned-out contraflow events among a step's outputs that
carry the given event id and a CB action in {Ack, Fail}. -/
def countAckFailOut (eid : Nat) (outs : List Output) : Nat :=
  outs.countP (fun o =>
    match o with
    | Output.contraflow e => decide (e.eventId = eid ∧ (e.cb = CbAction.ack ∨ e.cb = CbAction.fail))
    | _ => false)

/-- The auto-ack contribution of a reply vector: one when the vector is
non-empty and its first reply is `None` (the case in which the final
`match first` of `handle_replies` emits the auto-ack), zero otherwise. -/
def autoAckBonus (replies : List SinkReply) : Nat :=
  match replies with
  | SinkReply.none :: _ => 1
  | _ => 0

/-- Number of `Drain` control messages in a history. -/
def countDrainMsgs (msgs : List SinkMsg) : Nat :=
  msgs.countP (fun m =>
    match m with
    | SinkMsg.drain _ => true
    | _ => false)

/-- A fixed environment for concrete evaluations: `auto_ack` true,
`on_event` returning an empty reply vector, the sink not touching the
serializer. -/
def env0 : Env :=
  { autoAck := true, onEventRes := Except.ok [], onSignalRes := Except.ok [],
    eventDuration := 5, signalDuration := 3, now := 0, serEffect := fun ser => ser }

/-- The state `SinkManager::new` starts from (sink.rs lines 427-448). -/
def initState : SinkManagerState :=
  { pipelines := [], mergedOpMeta := [], startsReceived := ∅, drainsReceived := ∅,
    drainChannel := Option.none, state := SinkState.initialized, serializer := { streams := ∅ } }

/-- The initial state after a `Start` message: the running sink. -/
def runningState : SinkManagerState :=
  { initState with state := SinkState.running }

/-- A concrete transactional event. -/
def ev42 : Event :=
  { id := 42, ingestNs := 7, opMeta := [1], transactional := true, kind := Option.none }

/-- A concrete contraflow template. -/
def cfb42 : ContraflowBuilder :=
  { eventId := 42, ingestNs := 7, opMeta := [1] }

/-- A concrete `Drain(uid=5)` signal event. -/
def sigDrain5 : Event :=
  { id := 0, ingestNs := 0, opMeta := [], transactional := false,
    kind := some (SignalKind.drainSignal 5) }

/-- A concrete contraflow event for witnesses. -/
def cf0 : CfEvent := cfb42.fail

/-- A concrete serializer with one per-stream entry. -/
def ser5 : EventSerializer := { streams := {5} }

theorem replyCf_all_none (d : Nat) (cfb : ContraflowBuilder) :
    ∀ rs : List SinkReply, (∀ r ∈ rs, r = SinkReply.none) →
      rs.filterMap (replyCf d cfb) = [] := by
  intro rs
  induction rs with
  | nil => intro _; rfl
  | cons r rs ih =>
    intro h
    have hr : r = SinkReply.none := h r (List.mem_cons_self r rs)
    subst hr
    simpa [replyCf] using ih (fun x hx => h x (List.mem_cons_of_mem _ hx))

theorem countAckFailCf_filterMap (d : Nat) (cfb : ContraflowBuilder) :
    ∀ rs : List SinkReply, (∀ r ∈ rs, SinkReply.isCB r = false) →
      countAckFailCf cfb.eventId (rs.filterMap (replyCf d cfb)) = countAckFailReplies rs := by
  intro rs
  induction rs with
  | nil => intro _; rfl
  | cons r rs ih =>
    intro h
    have htail := ih (fun x hx => h x (List.mem_cons_of_mem _ hx))
    cases r with
    | none =>
      simpa [replyCf, countAckFailReplies, List.countP_cons, countAckFailCf] using htail
    | ack =>
      simp [replyCf, countAckFailReplies, List.countP_cons, countAckFailCf,
        ContraflowBuilder.ack, CfEvent.cbAckWithTiming] at htail ⊢
      omega
    | fail =>
      simp [replyCf, countAckFailReplies, List.countP_cons, countAckFailCf,
        ContraflowBuilder.fail, CfEvent.cbFail] at htail ⊢
      omega
    | cb a =>
      have := h (SinkReply.cb a) (List.mem_cons_self _ _)
      simp [SinkReply.isCB] at this

theorem countAckFailCf_append (eid : Nat) (a b : List CfEvent) :
    countAckFailCf eid (a ++ b) = countAckFailCf eid a + countAckFailCf eid b := by
  simp [countAckFailCf, List.countP_append]

theorem countAckFailCf_firstCf (d : Nat) (cfb : ContraflowBuilder)
    (first : SinkReply) (hfirst : SinkReply.isCB first = false) :
    countAckFailCf cfb.eventId (firstCf d cfb true first) = 1 := by
  cases first with
  | none =>
    simp [firstCf, countAckFailCf, ContraflowBuilder.intoAck, CfEvent.cbAckWithTiming,
      List.countP_cons]
  | ack =>
    simp [firstCf, countAckFailCf, ContraflowBuilder.intoAck, CfEvent.cbAckWithTiming,
      List.countP_cons]
  | fail =>
    simp [firstCf, countAckFailCf, ContraflowBuilder.intoFail, CfEvent.cbFail,
      List.countP_cons]
  | cb a => simp [SinkReply.isCB] at hfirst

theorem countAckFailCf_handleReplies (replies : List SinkReply) (d : Nat)
    (cfb : ContraflowBuilder) (hnocb : ∀ r ∈ replies, SinkReply.isCB r = false) :
    countAckFailCf cfb.eventId (handleReplies replies d cfb true)
      = countAckFailReplies replies + autoAckBonus replies := by
  cases replies with
  | nil => rfl
  | cons first rest =>
    have hfirst : SinkReply.isCB first = false := hnocb first (List.mem_cons_self _ _)
    have hrest : ∀ r ∈ rest, SinkReply.isCB r = false :=
      fun r hr => hnocb r (List.mem_cons_of_mem _ hr)
    have h1 : countAckFailCf cfb.eventId (handleReplies (first :: rest) d cfb true)
        = countAckFailReplies rest + 1 := by
      show countAckFailCf cfb.eventId
          (rest.filterMap (replyCf d cfb) ++ firstCf d cfb true first) = _
      rw [countAckFailCf_append, countAckFailCf_filterMap d cfb rest hrest,
        countAckFailCf_firstCf d cfb first hfirst]
    rw [h1]
    cases first with
    | none => simp [countAckFailReplies, List.countP_cons, autoAckBonus]
    | ack => simp [countAckFailReplies, List.countP_cons, autoAckBonus]
    | fail => simp [countAckFailReplies, List.countP_cons, autoAckBonus]
    | cb a => simp [SinkReply.isCB] at hfirst

theorem replyCf_eventId (d : Nat) (cfb : ContraflowBuilder) (r : SinkReply) (e : CfEvent)
    (h : replyCf d cfb r = some e) : e.eventId = cfb.eventId := by
  cases r with
  | none => simp [replyCf] at h
  | ack =>
    simp [replyCf] at h
    rw [← h]
    rfl
  | fail =>
    simp [replyCf] at h
    rw [← h]
    rfl
  | cb a =>
    simp [replyCf] at h
    rw [← h]
    rfl

theorem handleReplies_eventId (replies : List SinkReply) (d : Nat) (cfb : ContraflowBuilder)
    (b : Bool) : ∀ e ∈ handleReplies replies d cfb b, e.eventId = cfb.eventId := by
  cases replies with
  | nil => intro e he; simp [handleReplies] at he
  | cons first rest =>
    intro e he
    rw [show handleReplies (first :: rest) d cfb b
        = rest.filterMap (replyCf d cfb) ++ firstCf d cfb b first from rfl] at he
    rcases List.mem_append.mp he with h | h
    · rcases List.mem_filterMap.mp h with ⟨r, _, hr⟩
      exact replyCf_eventId d cfb r e hr
    · cases first with
      | none =>
        cases b with
        | true => simp [firstCf] at h; rw [h]; rfl
        | false => simp [firstCf] at h
      | ack => simp [firstCf] at h; rw [h]; rfl
      | fail => simp [firstCf] at h; rw [h]; rfl
      | cb a => simp [firstCf] at h; rw [h]; rfl

theorem countAckFailOut_map (eid : Nat) (evs : List CfEvent) :
    countAckFailOut eid (evs.map Output.contraflow) = countAckFailCf eid evs := by
  induction evs with
  | nil => rfl
  | cons e es ih =>
    simp [countAckFailOut, countAckFailCf, List.countP_cons] at ih ⊢
    omega

/-- Claim C1, amended: for a transactional event processed while the user
sink's `auto_ack()` is true, every contraflow event emitted by reply
handling carries the event's id, and the number of those whose CB action
is in {Ack, Fail} equals the number of `Ack`/`Fail` replies in the vector
plus one auto-ack exactly when the vector is non-empty and its first
reply is `None` - provided the sink returned no explicit `CB` reply. In
particular it is exactly one only for such vectors; an empty reply vector
emits none. -/
theorem transactional_ack_fail_count (env : Env) (s : SinkManagerState) (ev : Event)
    (port : String) (replies : List SinkReply)
    (hok : env.onEventRes = Except.ok replies)
    (hauto : env.autoAck = true) (htrans : ev.transactional = true)
    (hnocb : ∀ r ∈ replies, SinkReply.isCB r = false) :
    countAckFailOut ev.id (sinkStep env s (SinkMsg.event ev port)).2
      = countAckFailReplies replies + autoAckBonus replies
    ∧ ∀ e : CfEvent, Output.contraflow e ∈ (sinkStep env s (SinkMsg.event ev port)).2 →
        e.eventId = ev.id := by
  have hcond : (ev.transactional && env.autoAck) = true := by rw [htrans, hauto]; rfl
  have houts : (sinkStep env s (SinkMsg.event ev port)).2
      = (handleReplies replies env.eventDuration (ContraflowBuilder.ofEvent ev) true).map
          Output.contraflow := by
    simp [sinkStep, hok, hcond]
  constructor
  · rw [houts, countAckFailOut_map]
    exact countAckFailCf_handleReplies replies env.eventDuration
      (ContraflowBuilder.ofEvent ev) hnocb
  · intro e he
    rw [houts] at he
    rcases List.mem_map.mp he with ⟨e2, he2, heq⟩
    have he2e : e2 = e := by injection heq
    rw [← he2e]
    exact handleReplies_eventId replies env.eventDuration (ContraflowBuilder.ofEvent ev)
      true e2 he2

/-- Claim C1, witness: a transactional event with an all-`None` reply
vector and `auto_ack` true yields exactly one Ack/Fail contraflow. -/
theorem transactional_ack_fail_count_witness :
    countAckFailOut 42 (sinkStep { env0 with onEventRes := Except.ok [SinkReply.none] }
      runningState (SinkMsg.event ev42 "in")).2 = 1 :=
  (transactional_ack_fail_count { env0 with onEventRes := Except.ok [SinkReply.none] }
    runningState ev42 "in" [SinkReply.none] rfl rfl rfl (by decide)).1

/-- Claim C1, counterexample: a transactional event processed with
`auto_ack()` true whose `on_event` returns an empty reply vector produces
zero Ack/Fail contraflow events, not exactly one as the claim states. -/
theorem transactional_empty_replies_counterexample :
    countAckFailOut 42 (sinkStep env0 runningState (SinkMsg.event ev42 "in")).2 = 0
    ∧ countAckFailOut 42 (sinkStep env0 runningState (SinkMsg.event ev42 "in")).2 ≠ 1 :=
  ⟨by decide, by decide⟩

/-- Claim C2, amended: reply handling emits nothing for an empty reply
vector even when `send_auto_ack` is true; for a non-empty vector whose
entries are all `None` it emits exactly the single auto-ack carrying the
recorded duration; and whenever the first reply is `None` the auto-ack is
emitted in addition to the per-reply contraflow events of the remaining
replies. -/
theorem auto_ack_reply_handling :
    (∀ (d : Nat) (cfb : ContraflowBuilder) (b : Bool), handleReplies [] d cfb b = [])
    ∧ (∀ (replies : List SinkReply) (d : Nat) (cfb : ContraflowBuilder),
        replies ≠ [] → (∀ r ∈ replies, r = SinkReply.none) →
        handleReplies replies d cfb true = [cfb.intoAck d])
    ∧ (∀ (rest : List SinkReply) (d : Nat) (cfb : ContraflowBuilder),
        handleReplies (SinkReply.none :: rest) d cfb true
          = rest.filterMap (replyCf d cfb) ++ [cfb.intoAck d]) := by
  refine ⟨fun d cfb b => rfl, ?_, fun rest d cfb => rfl⟩
  intro replies d cfb hne hall
  cases replies with
  | nil => exact absurd rfl hne
  | cons r rs =>
    have hr : r = SinkReply.none := hall r (List.mem_cons_self _ _)
    subst hr
    have hmap : rs.filterMap (replyCf d cfb) = [] :=
      replyCf_all_none d cfb rs (fun x hx => hall x (List.mem_cons_of_mem _ hx))
    show rs.filterMap (replyCf d cfb) ++ firstCf d cfb true SinkReply.none = _
    rw [hmap]
    rfl

/-- Claim C2, witness: an all-`None` two-element reply vector with
`send_auto_ack` true emits exactly the one timed auto-ack. -/
theorem auto_ack_reply_handling_witness :
    handleReplies [SinkReply.none, SinkReply.none] 5 cfb42 true = [cfb42.intoAck 5] :=
  auto_ack_reply_handling.2.1 [SinkReply.none, SinkReply.none] 5 cfb42 (by decide) (by decide)

/-- Claim C2, counterexample: with an empty reply vector and
`send_auto_ack` true, reply handling emits nothing - not a single ack
contraflow as the claim states. -/
theorem auto_ack_empty_vector_counterexample :
    handleReplies [] 7 cfb42 true = []
    ∧ countAckFailCf 42 (handleReplies [] 7 cfb42 true) ≠ 1 :=
  ⟨rfl, by decide⟩

/-- Claim C3: evaluating the drain-message paths of the manager loop. A
`Drain` in a state outside {Draining, Drained} with the drain quorum
already met transitions to `Drained` but sends `Msg::SourceDrained` - not
`SinkDrained` as the claim, the code's own error log text and the
symmetric paths (`Drain` in state `Drained`, the last `Drain` signal)
have it; those symmetric paths do send `SinkDrained`. A `Drain` while
already `Draining` is ignored. -/
theorem drain_quorum_sends_sourceDrained :
    (sinkStep env0 runningState (SinkMsg.drain 3)).1.state = SinkState.drained
    ∧ (sinkStep env0 runningState (SinkMsg.drain 3)).2
        = [Output.drainSend 3 ConnectorMsg.sourceDrained]
    ∧ (sinkStep env0 { runningState with state := SinkState.drained } (SinkMsg.drain 9)).2
        = [Output.drainSend 9 ConnectorMsg.sinkDrained]
    ∧ (sinkStep env0 { runningState with state := SinkState.draining } (SinkMsg.drain 9)).2
        = [] :=
  ⟨by decide, by decide, by decide, by decide⟩

/-- Claim C4, counterexample: the history consisting of the single signal
`Drain(uid=5)` - containing no `Drain` control message at all - already
brings the sink from its initial state to `Drained`, refuting the claimed
"only if a Drain message has been received" direction. -/
theorem drained_without_drain_message :
    (runSink env0 initState [SinkMsg.signal sigDrain5]).1.state = SinkState.drained
    ∧ countDrainMsgs [SinkMsg.signal sigDrain5] = 0 :=
  ⟨by decide, by decide⟩

/-- Claim C5: the lifecycle transitions follow the table - `Start` moves
`Initialized` to `Running` invoking `on_start`, `Resume` moves `Paused` to
`Running` invoking `on_resume`, `Pause` moves `Running` to `Paused`
invoking `on_pause`, each being a no-op with no hook invoked when the
state precondition fails; `Stop` moves any state to `Stopped` invoking
`on_stop`, and ends the loop so that all later messages are unprocessed. -/
theorem lifecycle_transitions (env : Env) (s : SinkManagerState) :
    sinkStep env s SinkMsg.start
      = (if s.state = SinkState.initialized then
          ({ s with state := SinkState.running }, [Output.hook LifecycleHook.onStart])
        else (s, []))
    ∧ sinkStep env s SinkMsg.resume
      = (if s.state = SinkState.paused then
          ({ s with state := SinkState.running }, [Output.hook LifecycleHook.onResume])
        else (s, []))
    ∧ sinkStep env s SinkMsg.pause
      = (if s.state = SinkState.running then
          ({ s with state := SinkState.paused }, [Output.hook LifecycleHook.onPause])
        else (s, []))
    ∧ sinkStep env s SinkMsg.stop
      = ({ s with state := SinkState.stopped }, [Output.hook LifecycleHook.onStop])
    ∧ ∀ ms : List SinkMsg, runSink env s (SinkMsg.stop :: ms)
      = ({ s with state := SinkState.stopped }, [Output.hook LifecycleHook.onStop]) := by
  refine ⟨rfl, rfl, rfl, rfl, fun ms => ?_⟩
  simp [runSink, sinkStep]

/-- Claim C10: a `Connect` message appends the given pipeline bindings to
the sink's binding list and a `Disconnect` removes every binding whose url
matches the given id, for every port argument - the `port == IN`
precondition is only a `debug_assert!`, a no-op in release builds. -/
theorem connect_disconnect_bindings (env : Env) (s : SinkManagerState) (port : String)
    (pls : List Binding) (id : Nat) :
    sinkStep env s (SinkMsg.connect port pls) = ({ s with pipelines := s.pipelines ++ pls }, [])
    ∧ sinkStep env s (SinkMsg.disconnect id port)
        = ({ s with pipelines := s.pipelines.filter (fun b => b.url ≠ id) }, []) :=
  ⟨rfl, rfl⟩

/-- Claim C4, amended: for every state and message, one processing step
ends in state `Drained` exactly when it was already `Drained` and the
message is not `Stop`, or the message is a `Drain` control message arriving
outside {Draining, Drained} while `drains_received` is a superset of
`starts_received`, or the message is a `Drain(uid)` signal after whose
`uid` insertion `drains_received` is a superset of `starts_received` - so
a `Drain` signal alone reaches `Drained` with no `Drain` message ever
received. -/
theorem drained_entry_characterization (env : Env) (s : SinkManagerState) (msg : SinkMsg) :
    (sinkStep env s msg).1.state = SinkState.drained ↔
      (s.state = SinkState.drained ∧ msg ≠ SinkMsg.stop)
      ∨ (∃ ch, msg = SinkMsg.drain ch ∧ s.state ≠ SinkState.draining
           ∧ s.state ≠ SinkState.drained ∧ s.startsReceived ⊆ s.drainsReceived)
      ∨ (∃ sig uid, msg = SinkMsg.signal sig ∧ sig.kind = some (SignalKind.drainSignal uid)
           ∧ s.startsReceived ⊆ insert uid s.drainsReceived) := by
  cases msg with
  | connect port pls => simp [sinkStep]
  | disconnect id port => simp [sinkStep]
  | connectionLost => simp [sinkStep]
  | connectionEstablished => simp [sinkStep]
  | stop => simp [sinkStep]
  | start =>
    by_cases h : s.state = SinkState.initialized
    · simp [sinkStep, h]
    · simp [sinkStep, h]
  | resume =>
    by_cases h : s.state = SinkState.paused
    · simp [sinkStep, h]
    · simp [sinkStep, h]
  | pause =>
    by_cases h : s.state = SinkState.running
    · simp [sinkStep, h]
    · simp [sinkStep, h]
  | event ev port => simp [sinkStep]
  | drain ch =>
    by_cases h1 : s.state = SinkState.draining
    · simp [sinkStep, h1]
    · by_cases h2 : s.state = SinkState.drained
      · simp [sinkStep, h1, h2]
      · by_cases h3 : s.startsReceived ⊆ s.drainsReceived
        · simp [sinkStep, h1, h2, h3]
        · simp [sinkStep, h1, h2, h3]
  | signal sig =>
    cases hk : sig.kind with
    | none => simp [sinkStep, hk]
    | some k =>
      cases k with
      | startSignal uid => simp [sinkStep, hk]
      | tick => simp [sinkStep, hk]
      | drainSignal uid =>
        by_cases hq : s.startsReceived ⊆ insert uid s.drainsReceived
        · cases hch : s.drainChannel with
          | none => simp [sinkStep, hk, hq, hch]
          | some ch => simp [sinkStep, hk, hq, hch]
        · simp [sinkStep, hk, hq]

/-- Claim C6: the contraflow fan-out sends the event to each currently
connected binding exactly once - the targets of the performed sends are a
permutation of the binding list, every send carries the event, an empty
binding list sends nothing, which sends happen (targets, payload, cloning)
does not depend on which sends fail, and for a non-empty list every
binding except the first receives a clone while the original goes to the
first binding (sent last). -/
theorem contraflow_fanout (sendOk sendOk2 : Binding → Bool) (pipelines : List Binding)
    (cf : CfEvent) :
    ((sendContraflow sendOk pipelines cf).map SendRec.target).Perm pipelines
    ∧ (∀ r ∈ sendContraflow sendOk pipelines cf, r.event = cf)
    ∧ sendContraflow sendOk [] cf = []
    ∧ ((sendContraflow sendOk pipelines cf).map fun r => (r.target, r.event, r.cloned))
        = ((sendContraflow sendOk2 pipelines cf).map fun r => (r.target, r.event, r.cloned))
    ∧ ∀ first rest, pipelines = first :: rest →
        ((sendContraflow sendOk pipelines cf).map fun r => (r.target, r.cloned))
          = rest.map (fun b => (b, true)) ++ [(first, false)] := by
  refine ⟨?_, ?_, rfl, ?_, ?_⟩
  · cases pipelines with
    | nil => simp [sendContraflow]
    | cons first rest =>
      have h1 : ((sendContraflow sendOk (first :: rest) cf).map SendRec.target)
          = rest ++ [first] := by
        simp [sendContraflow, Function.comp_def]
      rw [h1]
      exact List.perm_append_singleton first rest
  · intro r hr
    cases pipelines with
    | nil => simp [sendContraflow] at hr
    | cons first rest =>
      simp [sendContraflow] at hr
      rcases hr with ⟨b, _, h⟩ | h
      · rw [← h]
      · rw [h]
  · cases pipelines with
    | nil => rfl
    | cons first rest => simp [sendContraflow, Function.comp]
  · intro first rest hps
    subst hps
    simp [sendContraflow, Function.comp]

/-- Claim C6, witness: with two connected bindings, the second receives
the clone and the first receives the original, sent last. -/
theorem contraflow_fanout_witness :
    ({ target := { url := 2, addr := 2 }, event := cf0, cloned := true, ok := true } : SendRec).event
      = cf0
    ∧ ((sendContraflow (fun _ => true) [{ url := 1, addr := 1 }, { url := 2, addr := 2 }] cf0).map
        fun r => (r.target, r.cloned))
      = [({ url := 2, addr := 2 }, true), ({ url := 1, addr := 1 }, false)] :=
  ⟨(contraflow_fanout (fun _ => true) (fun _ => false)
      [{ url := 1, addr := 1 }, { url := 2, addr := 2 }] cf0).2.1
      { target := { url := 2, addr := 2 }, event := cf0, cloned := true, ok := true } (by decide),
   (contraflow_fanout (fun _ => true) (fun _ => false)
      [{ url := 1, addr := 1 }, { url := 2, addr := 2 }] cf0).2.2.2.2
      { url := 1, addr := 1 } [{ url := 2, addr := 2 }] rfl⟩

/-- Claim C7: whenever both the async reply channel and the control/data
channel have a ready message, the next message the merged stream yields is
the one from the async reply channel; and draining the merge delivers the
async replies in their own order (the left projection of the merged
sequence is exactly the async reply queue). -/
theorem async_reply_priority :
    (∀ (r : AsyncSinkReply) (hs : List AsyncSinkReply) (m : SinkMsg) (ls : List SinkMsg),
       priorityNext (r :: hs) (m :: ls) = some (Sum.inl r, hs, m :: ls))
    ∧ (∀ (hs : List AsyncSinkReply) (ls : List SinkMsg),
       (priorityDrain hs ls).filterMap
           (fun x => match x with
             | Sum.inl a => some a
             | Sum.inr _ => Option.none) = hs) := by
  refine ⟨fun r hs m ls => rfl, fun hs ls => ?_⟩
  induction hs with
  | nil =>
    induction ls with
    | nil => rfl
    | cons m ms ih => simp [priorityDrain]
  | cons r rs ih => simpa [priorityDrain] using ih

/-- Claim C8: when `on_event` returns an error, the manager emits the fail
contraflow built from the retained template exactly when the event was
transactional and emits nothing otherwise, and the sink state - the
lifecycle state, the bindings, the start/drain bookkeeping and the drain
channel - is unchanged. -/
theorem on_event_error_behaviour (env : Env) (s : SinkManagerState) (ev : Event)
    (port : String) (herr : env.onEventRes = Except.error ()) :
    (sinkStep env s (SinkMsg.event ev port)).2
      = (if ev.transactional then
          [Output.contraflow (ContraflowBuilder.ofEvent ev).intoFail]
        else [])
    ∧ (sinkStep env s (SinkMsg.event ev port)).1.state = s.state
    ∧ (sinkStep env s (SinkMsg.event ev port)).1.pipelines = s.pipelines
    ∧ (sinkStep env s (SinkMsg.event ev port)).1.startsReceived = s.startsReceived
    ∧ (sinkStep env s (SinkMsg.event ev port)).1.drainsReceived = s.drainsReceived
    ∧ (sinkStep env s (SinkMsg.event ev port)).1.drainChannel = s.drainChannel := by
  refine ⟨?_, ?_, ?_, ?_, ?_, ?_⟩ <;> simp [sinkStep, herr]

/-- Claim C8, witness: a transactional event whose `on_event` errors gets
exactly the one fail contraflow, and the lifecycle state stays `Running`. -/
theorem on_event_error_behaviour_witness :
    (sinkStep { env0 with onEventRes := Except.error () } runningState
        (SinkMsg.event ev42 "in")).2
      = [Output.contraflow (ContraflowBuilder.ofEvent ev42).intoFail]
    ∧ (sinkStep { env0 with onEventRes := Except.error () } runningState
        (SinkMsg.event ev42 "in")).1.state = runningState.state :=
  ⟨(on_event_error_behaviour { env0 with onEventRes := Except.error () } runningState
      ev42 "in" rfl).1,
   (on_event_error_behaviour { env0 with onEventRes := Except.error () } runningState
      ev42 "in" rfl).2.1⟩

/-- Claim C9: `serialize_for_stream` with stream id 0 always uses the
primary codec/postprocessor chain and never touches the stream map; for
any other id a per-stream pair is constructed lazily on first use and an
existing pair is reused; an entry, once present, is retained by any
serialize call and removed exactly by `drop_stream` of its id or by
`clear`; and after a `ConnectionLost` message is handled the serializer's
per-stream map is empty. -/
theorem serializer_stream_lifecycle (ser : EventSerializer) (v ns v2 ns2 sid j : Nat)
    (env : Env) (s : SinkManagerState) :
    ser.serializeForStream v ns 0 = (ser, SerializeChoice.primary)
    ∧ (sid ≠ 0 → sid ∉ ser.streams →
        ser.serializeForStream v ns sid
          = ({ streams := insert sid ser.streams }, SerializeChoice.newStream sid))
    ∧ (sid ≠ 0 → sid ∈ ser.streams →
        ser.serializeForStream v ns sid = (ser, SerializeChoice.existingStream sid))
    ∧ (sid ∈ ser.streams → sid ∈ (ser.serializeForStream v2 ns2 j).1.streams)
    ∧ (ser.dropStream sid).streams = ser.streams.erase sid
    ∧ ser.clear.streams = ∅
    ∧ (sinkStep env s SinkMsg.connectionLost).1.serializer.streams = ∅ := by
  refine ⟨?_, ?_, ?_, ?_, rfl, rfl, ?_⟩
  · simp [EventSerializer.serializeForStream, DEFAULT_STREAM_ID]
  · intro hne hnotin
    simp [EventSerializer.serializeForStream, DEFAULT_STREAM_ID, hne, hnotin]
  · intro hne hin
    simp [EventSerializer.serializeForStream, DEFAULT_STREAM_ID, hne, hin]
  · intro hin
    by_cases hj : j = DEFAULT_STREAM_ID
    · simpa [EventSerializer.serializeForStream, hj] using hin
    · by_cases hjin : j ∈ ser.streams
      · simpa [EventSerializer.serializeForStream, hj, hjin] using hin
      · simp [EventSerializer.serializeForStream, hj, hjin]
        exact Or.inr hin
  · simp [sinkStep, EventSerializer.clear]

/-- Claim C9, witness: stream 7 is created lazily on first use while an
existing entry for stream 5 is retained across a serialize call for a
different stream. -/
theorem serializer_stream_lifecycle_witness :
    (7 : Nat) ∉ ser5.streams
    ∧ ser5.serializeForStream 1 2 7
        = ({ streams := insert 7 ser5.streams }, SerializeChoice.newStream 7)
    ∧ (5 : Nat) ∈ (ser5.serializeForStream 1 2 9).1.streams :=
  ⟨by decide,
   (serializer_stream_lifecycle ser5 1 2 1 2 7 9 env0 initState).2.1 (by decide) (by decide),
   (serializer_stream_lifecycle ser5 1 2 1 2 5 9 env0 initState).2.2.2.1 (by decide)⟩
